import Mathlib

/-!
# HealthGuardAI dashboard: offline report queue and sync reconciliation

A shallow embedding of the stateful part of `src/src/App.jsx`:

* the dashboard state held by `HealthGuardAIDashboard` (`offline`, `alerts`,
  `caseReports`, `queuedReports`, `waterData`);
* `ReportCaseForm.handleSubmit` and `handleCaseSubmit`;
* the effect on `[offline]` that flushes the queued reports;
* the offline toggle, the alert dismissal and the sensor tick.

React state setters become explicit state passing.  Everything the code reads
from its environment is an argument of the embedded function: each call of
`Date.now()` is a `Nat` clock reading, each `toLocaleString()` or
`toLocaleTimeString()` a `String`, and the random sensor reading of a tick is
its `WaterEntry` argument.
-/

namespace HealthGuard

/-! ## Data model -/

/-- An entry of the `alerts` array: `{ id, type, message, time }`. -/
structure Alert where
  id : Nat
  type : String
  message : String
  time : String
  deriving DecidableEq, Repr

/-- The state of `ReportCaseForm`: `{ name, age, symptoms, location, reporter }`. -/
structure Form where
  name : String
  age : String
  symptoms : String
  location : String
  reporter : String
  deriving DecidableEq, Repr

/-- The payload built by `handleSubmit`: `{ ...form, id, time }`. -/
structure Report where
  name : String
  age : String
  symptoms : String
  location : String
  reporter : String
  id : Nat
  time : String
  deriving DecidableEq, Repr

/-- One simulated sensor reading, `{ time, pH, turbidity, bacteria }`.  The two
readings that the code rounds with `toFixed(2)` are kept in hundredths. -/
structure WaterEntry where
  time : String
  pH : Nat
  turbidity : Nat
  bacteria : Nat
  deriving DecidableEq, Repr

/-- The `useState` cells of `HealthGuardAIDashboard` that the report flow and
the alert list read or write. -/
structure Dashboard where
  offline : Bool
  alerts : List Alert
  caseReports : List Report
  queuedReports : List Report
  waterData : List WaterEntry
  deriving DecidableEq, Repr

/-- The three alerts the `alerts` cell is created with (App.jsx lines 97-101). -/
def seededAlerts : List Alert :=
  [ ⟨1, "critical", "Village Well A — High bacteria", "2 min ago"⟩,
    ⟨2, "warning", "Predicted outbreak — Zone 3", "3 hours ago"⟩,
    ⟨3, "info", "Sensor offline — Tank 7", "1 day ago"⟩ ]

/-- The state on mount: `offline = false`, the seeded alerts, no reports,
nothing queued, no sensor data. -/
def initialState : Dashboard :=
  ⟨false, seededAlerts, [], [], []⟩

/-- The value `setForm` resets the form to after an accepted submission. -/
def emptyForm : Form := ⟨"", "", "", "", ""⟩

/-! ## Operations -/

/-- The payload `{ ...form, id: Date.now(), time: new Date().toLocaleString() }`. -/
def mkPayload (form : Form) (now : Nat) (time : String) : Report :=
  ⟨form.name, form.age, form.symptoms, form.location, form.reporter, now, time⟩

/-- The alert pushed by `handleCaseSubmit` while offline. -/
def queuedAlert (now : Nat) : Alert :=
  ⟨now, "info", "Report queued (offline)", "just now"⟩

/-- The alert pushed by `handleCaseSubmit` while online. -/
def newCaseAlert (now : Nat) (report : Report) : Alert :=
  ⟨now, "warning", "New case reported: " ++ report.symptoms, "just now"⟩

/-- The alert pushed by the flush effect; `n` is `queuedReports.length`. -/
def syncedAlert (now : Nat) (n : Nat) : Alert :=
  ⟨now, "info", toString n ++ " queued reports synced", "just now"⟩

/-- The alert pushed by a sensor tick whose bacteria count exceeds 150. -/
def bacteriaAlert (now : Nat) (bacteria : Nat) : Alert :=
  ⟨now, "critical", "High bacteria detected (" ++ toString bacteria ++ ")", "just now"⟩

/-- The function `handleCaseSubmit(report)` of App.jsx lines 171-185; `now` is
the clock reading taken for the alert id. -/
def handleCaseSubmit (now : Nat) (report : Report) (s : Dashboard) : Dashboard :=
  if s.offline then
    { s with
      queuedReports := report :: s.queuedReports
      alerts := queuedAlert now :: s.alerts }
  else
    { s with
      caseReports := report :: s.caseReports
      alerts := newCaseAlert now report :: s.alerts }

/-- The text of the dialog `handleSubmit` opens when it rejects the form. -/
def validationMessage : String := "Please provide at least a name and symptoms."

/-- The function `ReportCaseForm.handleSubmit` of App.jsx lines 303-311.  The
form fields are strings, so `!form.name` holds exactly for the empty string.
A rejected form gives `Except.error` with the dialog text and never reaches
`onSubmit`; an accepted one gives the reset form and the dashboard after
`onSubmit(payload)`.  `idNow` and `time` are the clock readings of the payload,
`alertNow` the one taken inside `handleCaseSubmit`. -/
def handleSubmit (form : Form) (idNow : Nat) (time : String) (alertNow : Nat)
    (s : Dashboard) : Except String (Form × Dashboard) :=
  if form.name = "" ∨ form.symptoms = "" then
    .error validationMessage
  else
    .ok (emptyForm, handleCaseSubmit alertNow (mkPayload form idNow time) s)

/-- The body of the effect on `[offline]` (App.jsx lines 158-169): when online
with a non-empty queue, move the queue in front of the case reports, empty it
and push the sync alert. -/
def flushEffect (now : Nat) (s : Dashboard) : Dashboard :=
  if !s.offline && decide (s.queuedReports.length > 0) then
    { s with
      caseReports := s.queuedReports ++ s.caseReports
      queuedReports := []
      alerts := syncedAlert now s.queuedReports.length :: s.alerts }
  else s

/-- The offline checkbox, `setOffline((v) => !v)`: only the flag flips. -/
def setOfflineToggle (s : Dashboard) : Dashboard :=
  { s with offline := !s.offline }

/-- One click on the offline checkbox: the flag flips and, `offline` being the
dependency of the flush effect, the effect runs once on the new state. -/
def toggle (now : Nat) (s : Dashboard) : Dashboard :=
  flushEffect now (setOfflineToggle s)

/-- The Dismiss button of `AlertsPage`:
`setAlerts((prev) => prev.filter((al) => al.id !== a.id))`. -/
def dismiss (alertId : Nat) (s : Dashboard) : Dashboard :=
  { s with alerts := s.alerts.filter (fun al => al.id != alertId) }

/-- The array method `prev.slice(-19)`: the last 19 elements. -/
def sliceLast19 (xs : List WaterEntry) : List WaterEntry :=
  xs.drop (xs.length - 19)

/-- One run of the interval callback (App.jsx lines 142-154) with the reading
`entry` and the clock reading `now`. -/
def sensorTick (entry : WaterEntry) (now : Nat) (s : Dashboard) : Dashboard :=
  let s1 := { s with waterData := sliceLast19 s.waterData ++ [entry] }
  if entry.bacteria > 150 then
    { s1 with alerts := bacteriaAlert now entry.bacteria :: s1.alerts }
  else s1

/-! ## Events and reachable states -/

/-- The external events of the single-threaded UI, each with the values the
handler reads from its environment. -/
inductive Event where
  | submit (form : Form) (idNow : Nat) (time : String) (alertNow : Nat)
  | toggle (now : Nat)
  | dismiss (alertId : Nat)
  | tick (entry : WaterEntry) (now : Nat)
  deriving DecidableEq, Repr

/-- The dashboard after one event; a rejected submission changes nothing. -/
def step (s : Dashboard) : Event → Dashboard
  | .submit form idNow time alertNow =>
      match handleSubmit form idNow time alertNow s with
      | .ok (_, s1) => s1
      | .error _ => s
  | .toggle now => toggle now s
  | .dismiss alertId => dismiss alertId s
  | .tick entry now => sensorTick entry now s

/-- The dashboard after a sequence of events, processed in arrival order. -/
def run (s : Dashboard) (es : List Event) : Dashboard :=
  es.foldl step s

/-- A state is reachable when some event sequence leads to it from mount. -/
def Reachable (s : Dashboard) : Prop :=
  ∃ es : List Event, run initialState es = s


/-! ## Sample inputs -/

/-- The form of report A of the scenario: name "Asha", symptoms "fever". -/
def formA : Form := ⟨"Asha", "", "fever", "", ""⟩

/-- The form of report B of the scenario: name "Ravi", symptoms "cough". -/
def formB : Form := ⟨"Ravi", "", "cough", "", ""⟩

/-- A sensor reading with a bacteria count of 200, above the alert threshold. -/
def highReading : WaterEntry := ⟨"10:00:00", 712, 354, 200⟩

/-- The clock readings of the scenario: for each submission the `Date.now()`
of the payload, its `toLocaleString()` and the `Date.now()` of the alert, and a
reading for each of the two toggles. -/
structure ScenarioClock where
  idA : Nat
  timeA : String
  alertA : Nat
  nowOff : Nat
  idB : Nat
  timeB : String
  alertB : Nat
  nowOn : Nat
  deriving DecidableEq, Repr

/-- Report A as `handleSubmit` builds it. -/
def reportA (c : ScenarioClock) : Report := mkPayload formA c.idA c.timeA

/-- Report B as `handleSubmit` builds it. -/
def reportB (c : ScenarioClock) : Report := mkPayload formB c.idB c.timeB

/-- Scenario, first stage: from mount, submit A. -/
def scenarioSubmitA (c : ScenarioClock) : Dashboard :=
  step initialState (.submit formA c.idA c.timeA c.alertA)

/-- Scenario, second stage: go offline, then submit B. -/
def scenarioSubmitB (c : ScenarioClock) : Dashboard :=
  step (step (scenarioSubmitA c) (.toggle c.nowOff)) (.submit formB c.idB c.timeB c.alertB)

/-- Scenario, third stage: go online again. -/
def scenarioOnline (c : ScenarioClock) : Dashboard :=
  step (scenarioSubmitB c) (.toggle c.nowOn)

/-- Concrete clock readings for the scenario. -/
def sampleClock : ScenarioClock :=
  ⟨1000, "day 1, 10:00", 1001, 2000, 3000, "day 1, 10:05", 3001, 4000⟩

/-- A sensor tick and an accepted submission handled within one millisecond:
every `Date.now()` of the two handlers reads 1700000000000. -/
def sameClockEvents : List Event :=
  [ .tick highReading 1700000000000,
    .submit formA 1700000000000 "day 2, 09:00" 1700000000000 ]

/-! ## Report objects

The payload of an accepted submission is a fresh JavaScript object, and the
two report arrays hold references to such objects.  To speak of one report
being held by a list, the dashboard is embedded a second time with every
payload paired with its reference, the number of payload objects created
before it.  `eraseRefs` forgets the references and gives back `Dashboard`. -/

/-- A payload object: its reference and its fields. -/
structure ReportObj where
  ref : Nat
  fields : Report
  deriving DecidableEq, Repr

/-- The dashboard with report objects in place of report values; `allocated`
counts the payload objects created so far. -/
structure ObjDashboard where
  allocated : Nat
  offline : Bool
  alerts : List Alert
  caseReports : List ReportObj
  queuedReports : List ReportObj
  waterData : List WaterEntry
  deriving DecidableEq, Repr

/-- The state on mount, no payload created yet. -/
def objInitialState : ObjDashboard :=
  ⟨0, false, seededAlerts, [], [], []⟩

/-- The dashboard of report values behind a dashboard of report objects. -/
def eraseRefs (s : ObjDashboard) : Dashboard :=
  ⟨s.offline, s.alerts, s.caseReports.map ReportObj.fields,
    s.queuedReports.map ReportObj.fields, s.waterData⟩

/-- The function `handleCaseSubmit(report)` on a payload object. -/
def objHandleCaseSubmit (now : Nat) (report : ReportObj) (s : ObjDashboard) :
    ObjDashboard :=
  if s.offline then
    { s with
      queuedReports := report :: s.queuedReports
      alerts := queuedAlert now :: s.alerts }
  else
    { s with
      caseReports := report :: s.caseReports
      alerts := newCaseAlert now report.fields :: s.alerts }

/-- The function `ReportCaseForm.handleSubmit`: an accepted form creates one
payload object, with the next reference, and hands it to `onSubmit`. -/
def objHandleSubmit (form : Form) (idNow : Nat) (time : String) (alertNow : Nat)
    (s : ObjDashboard) : Except String (Form × ObjDashboard) :=
  if form.name = "" ∨ form.symptoms = "" then
    .error validationMessage
  else
    .ok (emptyForm,
      objHandleCaseSubmit alertNow ⟨s.allocated, mkPayload form idNow time⟩
        { s with allocated := s.allocated + 1 })

/-- The body of the effect on `[offline]`, on report objects. -/
def objFlushEffect (now : Nat) (s : ObjDashboard) : ObjDashboard :=
  if !s.offline && decide (s.queuedReports.length > 0) then
    { s with
      caseReports := s.queuedReports ++ s.caseReports
      queuedReports := []
      alerts := syncedAlert now s.queuedReports.length :: s.alerts }
  else s

/-- One click on the offline checkbox, on report objects. -/
def objToggle (now : Nat) (s : ObjDashboard) : ObjDashboard :=
  objFlushEffect now { s with offline := !s.offline }

/-- The Dismiss button, which touches the alerts only. -/
def objDismiss (alertId : Nat) (s : ObjDashboard) : ObjDashboard :=
  { s with alerts := s.alerts.filter (fun al => al.id != alertId) }

/-- One run of the interval callback, which touches the sensor data and the
alerts only. -/
def objSensorTick (entry : WaterEntry) (now : Nat) (s : ObjDashboard) : ObjDashboard :=
  let s1 := { s with waterData := sliceLast19 s.waterData ++ [entry] }
  if entry.bacteria > 150 then
    { s1 with alerts := bacteriaAlert now entry.bacteria :: s1.alerts }
  else s1

/-- The dashboard of report objects after one event. -/
def objStep (s : ObjDashboard) : Event → ObjDashboard
  | .submit form idNow time alertNow =>
      match objHandleSubmit form idNow time alertNow s with
      | .ok (_, s1) => s1
      | .error _ => s
  | .toggle now => objToggle now s
  | .dismiss alertId => objDismiss alertId s
  | .tick entry now => objSensorTick entry now s

/-- The dashboard of report objects after a sequence of events from mount. -/
def objRun (es : List Event) : ObjDashboard :=
  es.foldl objStep objInitialState

/-- The payload object an event creates when `n` objects exist: one for a
submission that passes the validation of `handleSubmit`, none otherwise. -/
def objCreatedBy (n : Nat) : Event → List ReportObj
  | .submit form idNow time _ =>
      if form.name = "" ∨ form.symptoms = "" then []
      else [⟨n, mkPayload form idNow time⟩]
  | _ => []

/-- The payload objects a sequence of events creates, oldest first, when `n`
objects exist at its start. -/
def objCreatedFrom (n : Nat) : List Event → List ReportObj
  | [] => []
  | e :: es => objCreatedBy n e ++ objCreatedFrom (n + (objCreatedBy n e).length) es

/-- The accepted reports of a sequence of events from mount, oldest first. -/
def objCreated (es : List Event) : List ReportObj :=
  objCreatedFrom 0 es

/-- The clock readings that became report ids, oldest first. -/
def acceptedIds (es : List Event) : List Nat :=
  (objCreated es).map (fun o => o.fields.id)

/-- Two accepted submissions whose `Date.now()` readings are equal. -/
def equalClockSubmits : List Event :=
  [ .submit formA 1700000000000 "day 2, 09:00" 1700000000000,
    .submit formB 1700000000000 "day 2, 09:00" 1700000000001 ]

/-- Two accepted submissions with the wall clock set back between them: the
second reading is smaller than the first. -/
def clockSetBackSubmits : List Event :=
  [ .submit formA 1700000005000 "day 2, 09:00" 1700000005000,
    .submit formB 1700000000000 "day 2, 08:59" 1700000000001 ]

/-- A run with an online submission, an offline one and the sync. -/
def sampleEvents : List Event :=
  [ .submit formA 1000 "day 1, 10:00" 1001,
    .toggle 2000,
    .submit formB 3000 "day 1, 10:05" 3001,
    .submit ⟨"", "", "rash", "", ""⟩ 3500 "day 1, 10:06" 3501,
    .tick highReading 3600,
    .toggle 4000 ]

/-! ## Submission -/

/-- C1: a form whose name or symptoms is empty is rejected by `handleSubmit`
with the validation dialog, before `handleCaseSubmit` is reached, in either
connectivity mode and for any lists; the submit event leaves the whole
dashboard, so the queue, the confirmed list and the alerts, unchanged. -/
theorem submit_invalid_rejected (form : Form) (idNow : Nat) (time : String)
    (alertNow : Nat) (s : Dashboard) (h : form.name = "" ∨ form.symptoms = "") :
    handleSubmit form idNow time alertNow s = .error validationMessage ∧
    step s (.submit form idNow time alertNow) = s ∧
    (step s (.submit form idNow time alertNow)).queuedReports = s.queuedReports ∧
    (step s (.submit form idNow time alertNow)).caseReports = s.caseReports ∧
    (step s (.submit form idNow time alertNow)).alerts = s.alerts := by
  have hr : handleSubmit form idNow time alertNow s = .error validationMessage := by
    unfold handleSubmit
    rw [if_pos h]
  have hs : step s (.submit form idNow time alertNow) = s := by
    simp only [step, hr]
  exact ⟨hr, hs, by rw [hs], by rw [hs], by rw [hs]⟩

theorem submit_invalid_rejected_witness :
    (handleSubmit ⟨"", "12", "cough", "Ward 4", "nurse"⟩ 10 "noon" 11
        ⟨true, seededAlerts, [], [mkPayload ⟨"Ravi", "", "cough", "", ""⟩ 5 "am"], []⟩
      = .error validationMessage) ∧
    step ⟨true, seededAlerts, [], [mkPayload ⟨"Ravi", "", "cough", "", ""⟩ 5 "am"], []⟩
        (.submit ⟨"", "12", "cough", "Ward 4", "nurse"⟩ 10 "noon" 11)
      = ⟨true, seededAlerts, [], [mkPayload ⟨"Ravi", "", "cough", "", ""⟩ 5 "am"], []⟩ :=
  have h := submit_invalid_rejected ⟨"", "12", "cough", "Ward 4", "nurse"⟩ 10 "noon" 11
    ⟨true, seededAlerts, [], [mkPayload ⟨"Ravi", "", "cough", "", ""⟩ 5 "am"], []⟩
    (Or.inl rfl)
  ⟨h.1, h.2.1⟩

/-- C2: a form with non-empty name and symptoms submitted while offline is
accepted; the payload goes to the front of the queue, the confirmed list is
unchanged, and exactly one alert, of type "info" with the message
"Report queued (offline)", goes to the front of the alerts. -/
theorem submit_offline_queues (form : Form) (idNow : Nat) (time : String)
    (alertNow : Nat) (s : Dashboard)
    (hname : form.name ≠ "") (hsym : form.symptoms ≠ "") (hoff : s.offline = true) :
    ∃ s1 : Dashboard,
      handleSubmit form idNow time alertNow s = .ok (emptyForm, s1) ∧
      step s (.submit form idNow time alertNow) = s1 ∧
      s1.queuedReports = mkPayload form idNow time :: s.queuedReports ∧
      s1.queuedReports.length = s.queuedReports.length + 1 ∧
      s1.caseReports = s.caseReports ∧
      s1.alerts = queuedAlert alertNow :: s.alerts ∧
      s1.alerts.length = s.alerts.length + 1 ∧
      (queuedAlert alertNow).type = "info" ∧
      (queuedAlert alertNow).message = "Report queued (offline)" ∧
      s1.offline = true := by
  have hv : ¬ (form.name = "" ∨ form.symptoms = "") := by
    rintro (h | h)
    · exact hname h
    · exact hsym h
  have hr : handleSubmit form idNow time alertNow s
      = .ok (emptyForm, handleCaseSubmit alertNow (mkPayload form idNow time) s) := by
    unfold handleSubmit
    rw [if_neg hv]
  refine ⟨handleCaseSubmit alertNow (mkPayload form idNow time) s, hr, ?_, ?_⟩
  · simp only [step, hr]
  · simp [handleCaseSubmit, hoff, queuedAlert]

theorem submit_offline_queues_witness :
    ∃ s1 : Dashboard,
      handleSubmit ⟨"Ravi", "", "cough", "", ""⟩ 20 "noon" 21
        ⟨true, seededAlerts, [], [], []⟩ = .ok (emptyForm, s1) ∧
      s1.queuedReports = [mkPayload ⟨"Ravi", "", "cough", "", ""⟩ 20 "noon"] ∧
      s1.alerts = queuedAlert 21 :: seededAlerts :=
  have ⟨s1, h1, _, h3, _, _, h6, _⟩ :=
    submit_offline_queues ⟨"Ravi", "", "cough", "", ""⟩ 20 "noon" 21
      ⟨true, seededAlerts, [], [], []⟩ (by decide) (by decide) rfl
  ⟨s1, h1, h3, h6⟩

/-- C3: a form with non-empty name and symptoms submitted while online is
accepted; the payload goes to the front of the confirmed list, the queue is
unchanged, and exactly one alert, of type "warning" with the message
"New case reported: " followed by the symptoms, goes to the front of the
alerts. -/
theorem submit_online_confirms (form : Form) (idNow : Nat) (time : String)
    (alertNow : Nat) (s : Dashboard)
    (hname : form.name ≠ "") (hsym : form.symptoms ≠ "") (hon : s.offline = false) :
    ∃ s1 : Dashboard, ∃ a : Alert,
      handleSubmit form idNow time alertNow s = .ok (emptyForm, s1) ∧
      step s (.submit form idNow time alertNow) = s1 ∧
      s1.caseReports = mkPayload form idNow time :: s.caseReports ∧
      s1.caseReports.length = s.caseReports.length + 1 ∧
      s1.queuedReports = s.queuedReports ∧
      s1.alerts = a :: s.alerts ∧
      s1.alerts.length = s.alerts.length + 1 ∧
      a.type = "warning" ∧
      a.message = "New case reported: " ++ (mkPayload form idNow time).symptoms ∧
      (mkPayload form idNow time).symptoms = form.symptoms ∧
      List.IsSuffix form.symptoms.data a.message.data ∧
      s1.offline = false := by
  have hv : ¬ (form.name = "" ∨ form.symptoms = "") := by
    rintro (h | h)
    · exact hname h
    · exact hsym h
  have hr : handleSubmit form idNow time alertNow s
      = .ok (emptyForm, handleCaseSubmit alertNow (mkPayload form idNow time) s) := by
    unfold handleSubmit
    rw [if_neg hv]
  refine ⟨handleCaseSubmit alertNow (mkPayload form idNow time) s,
    newCaseAlert alertNow (mkPayload form idNow time), hr, ?_, ?_⟩
  · simp only [step, hr]
  · simp [handleCaseSubmit, hon, newCaseAlert, mkPayload, String.data_append]
    exact ⟨"New case reported: ".data, rfl⟩

theorem submit_online_confirms_witness :
    ∃ s1 : Dashboard, ∃ a : Alert,
      handleSubmit ⟨"Asha", "", "fever", "", ""⟩ 30 "noon" 31 initialState
        = .ok (emptyForm, s1) ∧
      s1.caseReports = [mkPayload ⟨"Asha", "", "fever", "", ""⟩ 30 "noon"] ∧
      s1.alerts = a :: seededAlerts ∧
      a.message = "New case reported: " ++ "fever" :=
  have ⟨s1, a, h1, _, h3, _, _, h6, _, _, h9, _⟩ :=
    submit_online_confirms ⟨"Asha", "", "fever", "", ""⟩ 30 "noon" 31 initialState
      (by decide) (by decide) rfl
  ⟨s1, a, h1, h3, h6, h9⟩


/-! ## Reconciliation -/

/-- The flush effect when online with something queued. -/
theorem flushEffect_online_nonempty (now : Nat) (s : Dashboard)
    (hon : s.offline = false) (hq : s.queuedReports ≠ []) :
    flushEffect now s =
      { s with
        caseReports := s.queuedReports ++ s.caseReports
        queuedReports := []
        alerts := syncedAlert now s.queuedReports.length :: s.alerts } := by
  have hlen : 0 < s.queuedReports.length := List.length_pos.mpr hq
  simp [flushEffect, hon, hlen]

/-- The flush effect does nothing while offline. -/
theorem flushEffect_offline (now : Nat) (s : Dashboard) (hoff : s.offline = true) :
    flushEffect now s = s := by
  simp [flushEffect, hoff]

/-- The flush effect does nothing when the queue is empty. -/
theorem flushEffect_empty (now : Nat) (s : Dashboard) (hq : s.queuedReports = []) :
    flushEffect now s = s := by
  simp [flushEffect, hq]

/-- C4: on an offline-to-online toggle with a non-empty queue, the confirmed
list becomes the queue, in its existing order, followed by the previously
confirmed reports in their order, and the queue becomes empty; a queue
`[r3, r2, r1]` gives the confirmed list `r3 :: r2 :: r1 :: c`. -/
theorem reconcile_order_preserved (now : Nat) (s : Dashboard)
    (hoff : s.offline = true) (hq : s.queuedReports ≠ []) :
    (toggle now s).caseReports = s.queuedReports ++ s.caseReports ∧
    (toggle now s).queuedReports = [] ∧
    (toggle now s).offline = false ∧
    (∀ r3 r2 r1 : Report, s.queuedReports = [r3, r2, r1] →
      (toggle now s).caseReports = r3 :: r2 :: r1 :: s.caseReports) := by
  have hon : (setOfflineToggle s).offline = false := by simp [setOfflineToggle, hoff]
  have hq1 : (setOfflineToggle s).queuedReports ≠ [] := hq
  have ht := flushEffect_online_nonempty now (setOfflineToggle s) hon hq1
  have hc : (toggle now s).caseReports = s.queuedReports ++ s.caseReports := by
    unfold toggle
    rw [ht]
    rfl
  refine ⟨hc, ?_, ?_, ?_⟩
  · unfold toggle
    rw [ht]
  · unfold toggle
    rw [ht]
    exact hon
  · intro r3 r2 r1 h
    rw [hc, h]
    rfl

/-- C5: on an offline-to-online toggle with a non-empty queue exactly one
alert is put in front of the alerts; its type is "info" and its message is the
decimal numeral of the queue length followed by " queued reports synced",
where the queue length is the growth of the confirmed list. -/
theorem reconcile_one_info_alert (now : Nat) (s : Dashboard)
    (hoff : s.offline = true) (hq : s.queuedReports ≠ []) :
    ∃ a : Alert,
      (toggle now s).alerts = a :: s.alerts ∧
      (toggle now s).alerts.length = s.alerts.length + 1 ∧
      a.type = "info" ∧
      a.message = toString s.queuedReports.length ++ " queued reports synced" ∧
      s.queuedReports.length
        = (toggle now s).caseReports.length - s.caseReports.length ∧
      (toggle now s).caseReports.length
        = s.caseReports.length + s.queuedReports.length := by
  have hon : (setOfflineToggle s).offline = false := by simp [setOfflineToggle, hoff]
  have hq1 : (setOfflineToggle s).queuedReports ≠ [] := hq
  have ht := flushEffect_online_nonempty now (setOfflineToggle s) hon hq1
  refine ⟨syncedAlert now s.queuedReports.length, ?_, ?_, rfl, rfl, ?_, ?_⟩
  · unfold toggle
    rw [ht]
    rfl
  · unfold toggle
    rw [ht]
    rfl
  · unfold toggle
    rw [ht]
    simp [setOfflineToggle]
  · unfold toggle
    rw [ht]
    simp [setOfflineToggle, Nat.add_comm]

/-- C6: with an empty queue the flush effect leaves the whole dashboard, so
the confirmed list, the queue and the alerts, unchanged; hence for every state
a second run right after a first changes nothing more. -/
theorem reconcile_idempotent (n1 n2 : Nat) (s : Dashboard) :
    (s.queuedReports = [] →
      flushEffect n1 s = s ∧
      (flushEffect n1 s).caseReports = s.caseReports ∧
      (flushEffect n1 s).queuedReports = s.queuedReports ∧
      (flushEffect n1 s).alerts = s.alerts) ∧
    flushEffect n2 (flushEffect n1 s) = flushEffect n1 s := by
  constructor
  · intro hq
    have h := flushEffect_empty n1 s hq
    exact ⟨h, by rw [h], by rw [h], by rw [h]⟩
  · by_cases hq : s.queuedReports = []
    · rw [flushEffect_empty n1 s hq, flushEffect_empty n2 s hq]
    · cases hoff : s.offline
      · apply flushEffect_empty
        rw [flushEffect_online_nonempty n1 s hoff hq]
      · rw [flushEffect_offline n1 s hoff, flushEffect_offline n2 s hoff]


theorem reconcile_order_preserved_witness :
    (toggle 9 ⟨true, seededAlerts, [mkPayload formA 1 "t1"],
        [mkPayload formB 4 "t4", mkPayload formA 3 "t3", mkPayload formB 2 "t2"], []⟩).caseReports
      = [mkPayload formB 4 "t4", mkPayload formA 3 "t3", mkPayload formB 2 "t2",
          mkPayload formA 1 "t1"] ∧
    (toggle 9 ⟨true, seededAlerts, [mkPayload formA 1 "t1"],
        [mkPayload formB 4 "t4", mkPayload formA 3 "t3", mkPayload formB 2 "t2"], []⟩).queuedReports
      = [] :=
  have h := reconcile_order_preserved 9
    ⟨true, seededAlerts, [mkPayload formA 1 "t1"],
      [mkPayload formB 4 "t4", mkPayload formA 3 "t3", mkPayload formB 2 "t2"], []⟩
    rfl (by decide)
  ⟨h.1, h.2.1⟩

theorem reconcile_one_info_alert_witness :
    ∃ a : Alert,
      (toggle 9 ⟨true, seededAlerts, [], [mkPayload formB 2 "t2", mkPayload formA 1 "t1"],
        []⟩).alerts = a :: seededAlerts ∧
      a.type = "info" ∧
      a.message = toString 2 ++ " queued reports synced" :=
  have ⟨a, h1, _, h3, h4, _⟩ := reconcile_one_info_alert 9
    ⟨true, seededAlerts, [], [mkPayload formB 2 "t2", mkPayload formA 1 "t1"], []⟩
    rfl (by decide)
  ⟨a, h1, h3, h4⟩

theorem reconcile_idempotent_witness :
    flushEffect 7 initialState = initialState ∧
    flushEffect 8 (flushEffect 7
        ⟨false, seededAlerts, [], [mkPayload formB 2 "t2"], []⟩)
      = flushEffect 7 ⟨false, seededAlerts, [], [mkPayload formB 2 "t2"], []⟩ :=
  ⟨((reconcile_idempotent 7 8 initialState).1 rfl).1,
   (reconcile_idempotent 7 8 ⟨false, seededAlerts, [], [mkPayload formB 2 "t2"], []⟩).2⟩

/-! ## The end-to-end scenario -/

/-- C7, as stated, fails on the alert counts: the dashboard is mounted with
three seeded alerts, so after submitting A the alerts hold 4 entries, not 1,
after submitting B offline 5, not 2, after going online again 6, not 3, and
the rejected submission of C leaves 6, not 3. -/
theorem scenario_alert_counts_counterexample :
    (scenarioSubmitA sampleClock).caseReports = [reportA sampleClock] ∧
    (scenarioSubmitA sampleClock).queuedReports = [] ∧
    (scenarioSubmitA sampleClock).alerts.length = 4 ∧
    (scenarioSubmitA sampleClock).alerts.length ≠ 1 ∧
    (scenarioSubmitB sampleClock).alerts.length ≠ 2 ∧
    (scenarioOnline sampleClock).alerts.length ≠ 3 ∧
    (step (scenarioOnline sampleClock)
      (.submit ⟨"", "40", "rash", "", ""⟩ 5000 "day 1, 10:10" 5001)).alerts.length ≠ 3 := by
  decide

/-- C7, amended: from the state on mount (online, nothing confirmed, nothing
queued, three seeded alerts), for any clock readings: submitting A confirms it
and adds 1 alert (4 in the list); going offline and submitting B queues it and
adds a second alert (5 in the list); going online moves B in front of A,
empties the queue and adds a third alert (6 in the list); a form with an empty
name is then rejected and leaves the dashboard, with its 6 alerts, unchanged. -/
theorem scenario_amended (c : ScenarioClock) (idC alertC : Nat)
    (timeC age symptoms location reporter : String) :
    ((scenarioSubmitA c).offline = false ∧
      (scenarioSubmitA c).caseReports = [reportA c] ∧
      (scenarioSubmitA c).queuedReports = [] ∧
      (scenarioSubmitA c).alerts = newCaseAlert c.alertA (reportA c) :: seededAlerts ∧
      (scenarioSubmitA c).alerts.length = 4) ∧
    ((scenarioSubmitB c).offline = true ∧
      (scenarioSubmitB c).caseReports = [reportA c] ∧
      (scenarioSubmitB c).queuedReports = [reportB c] ∧
      (scenarioSubmitB c).alerts
        = queuedAlert c.alertB :: newCaseAlert c.alertA (reportA c) :: seededAlerts ∧
      (scenarioSubmitB c).alerts.length = 5) ∧
    ((scenarioOnline c).offline = false ∧
      (scenarioOnline c).caseReports = [reportB c, reportA c] ∧
      (scenarioOnline c).queuedReports = [] ∧
      (scenarioOnline c).alerts
        = syncedAlert c.nowOn 1 :: queuedAlert c.alertB
          :: newCaseAlert c.alertA (reportA c) :: seededAlerts ∧
      (scenarioOnline c).alerts.length = 6) ∧
    handleSubmit ⟨"", age, symptoms, location, reporter⟩ idC timeC alertC (scenarioOnline c)
      = .error validationMessage ∧
    step (scenarioOnline c) (.submit ⟨"", age, symptoms, location, reporter⟩ idC timeC alertC)
      = scenarioOnline c := by
  have h1 : scenarioSubmitA c
      = ⟨false, newCaseAlert c.alertA (reportA c) :: seededAlerts, [reportA c], [], []⟩ := by
    simp only [scenarioSubmitA, step, handleSubmit]
    rfl
  have h2 : scenarioSubmitB c
      = ⟨true, queuedAlert c.alertB :: newCaseAlert c.alertA (reportA c) :: seededAlerts,
          [reportA c], [reportB c], []⟩ := by
    simp only [scenarioSubmitB, h1, step, handleSubmit]
    rfl
  have h3 : scenarioOnline c
      = ⟨false, syncedAlert c.nowOn 1 :: queuedAlert c.alertB
          :: newCaseAlert c.alertA (reportA c) :: seededAlerts,
          [reportB c, reportA c], [], []⟩ := by
    simp only [scenarioOnline, h2, step]
    rfl
  have h4 : handleSubmit ⟨"", age, symptoms, location, reporter⟩ idC timeC alertC
      (scenarioOnline c) = .error validationMessage := by
    simp [handleSubmit]
  refine ⟨?_, ?_, ?_, h4, ?_⟩
  · rw [h1]
    exact ⟨rfl, rfl, rfl, rfl, rfl⟩
  · rw [h2]
    exact ⟨rfl, rfl, rfl, rfl, rfl⟩
  · rw [h3]
    exact ⟨rfl, rfl, rfl, rfl, rfl⟩
  · simp only [step, h4]

/-! ## The offline toggle -/

/-- A toggle taken while online only sets the flag. -/
theorem toggle_online (now : Nat) (s : Dashboard) (hon : s.offline = false) :
    toggle now s = { s with offline := true } := by
  have h : (setOfflineToggle s).offline = true := by simp [setOfflineToggle, hon]
  unfold toggle
  rw [flushEffect_offline now _ h]
  simp [setOfflineToggle, hon]

/-- A toggle taken while offline with an empty queue only clears the flag. -/
theorem toggle_offline_empty (now : Nat) (s : Dashboard)
    (hoff : s.offline = true) (hq : s.queuedReports = []) :
    toggle now s = { s with offline := false } := by
  have h : (setOfflineToggle s).queuedReports = [] := hq
  unfold toggle
  rw [flushEffect_empty now _ h]
  simp [setOfflineToggle, hoff]

/-- A toggle taken while offline with a non-empty queue clears the flag and
runs the flush. -/
theorem toggle_offline_nonempty (now : Nat) (s : Dashboard)
    (hoff : s.offline = true) (hq : s.queuedReports ≠ []) :
    toggle now s =
      { s with
        offline := false
        caseReports := s.queuedReports ++ s.caseReports
        queuedReports := []
        alerts := syncedAlert now s.queuedReports.length :: s.alerts } := by
  have hon : (setOfflineToggle s).offline = false := by simp [setOfflineToggle, hoff]
  have hq1 : (setOfflineToggle s).queuedReports ≠ [] := hq
  unfold toggle
  rw [flushEffect_online_nonempty now _ hon hq1]
  simp [setOfflineToggle, hoff]

/-- A list with one more element in front differs from the list. -/
theorem cons_ne_self_list {α : Type} (a : α) (l : List α) : a :: l ≠ l := by
  intro h
  have hl := congrArg List.length h
  simp at hl

/-- C8: a toggle changes the alerts exactly when it is taken offline with a
non-empty queue, and the same holds for the queue and for the confirmed list;
in that case exactly one alert, the sync alert, is put in front and the queue
moves in front of the confirmed list.  A toggle taken online, or offline with
an empty queue, flips the flag and nothing else.  Three toggles in a row from
an offline state with an empty queue leave alerts, queue and confirmed list as
they were. -/
theorem toggle_single_transition (now n2 n3 : Nat) (s : Dashboard) :
    ((toggle now s).alerts ≠ s.alerts ↔ (s.offline = true ∧ s.queuedReports ≠ [])) ∧
    ((toggle now s).queuedReports ≠ s.queuedReports
      ↔ (s.offline = true ∧ s.queuedReports ≠ [])) ∧
    ((toggle now s).caseReports ≠ s.caseReports
      ↔ (s.offline = true ∧ s.queuedReports ≠ [])) ∧
    (s.offline = true → s.queuedReports ≠ [] →
      (toggle now s).alerts = syncedAlert now s.queuedReports.length :: s.alerts ∧
      (toggle now s).alerts.length = s.alerts.length + 1 ∧
      (toggle now s).caseReports = s.queuedReports ++ s.caseReports ∧
      (toggle now s).queuedReports = [] ∧
      (toggle now s).offline = false) ∧
    (s.offline = false →
      toggle now s = setOfflineToggle s ∧ (toggle now s).offline = true) ∧
    (s.offline = true → s.queuedReports = [] →
      toggle now s = setOfflineToggle s ∧ (toggle now s).offline = false) ∧
    (s.offline = true → s.queuedReports = [] →
      toggle n3 (toggle n2 (toggle now s)) = setOfflineToggle s ∧
      (toggle n3 (toggle n2 (toggle now s))).alerts = s.alerts ∧
      (toggle n3 (toggle n2 (toggle now s))).queuedReports = [] ∧
      (toggle n3 (toggle n2 (toggle now s))).caseReports = s.caseReports) := by
  have key : ∀ P : Prop, (s.offline = true → s.queuedReports ≠ [] → P) →
      (s.offline = false → ¬ P) → (s.offline = true → s.queuedReports = [] → ¬ P) →
      (P ↔ (s.offline = true ∧ s.queuedReports ≠ [])) := by
    intro P hyes hon hempty
    constructor
    · intro hp
      cases hoff : s.offline
      · exact absurd hp (hon hoff)
      · by_cases hq : s.queuedReports = []
        · exact absurd hp (hempty hoff hq)
        · exact ⟨rfl, hq⟩
    · rintro ⟨hoff, hq⟩
      exact hyes hoff hq
  refine ⟨?_, ?_, ?_, ?_, ?_, ?_, ?_⟩
  · apply key
    · intro hoff hq
      rw [toggle_offline_nonempty now s hoff hq]
      exact cons_ne_self_list _ _
    · intro hon
      rw [toggle_online now s hon]
      simp
    · intro hoff hq
      rw [toggle_offline_empty now s hoff hq]
      simp
  · apply key
    · intro hoff hq
      rw [toggle_offline_nonempty now s hoff hq]
      exact fun h => hq h.symm
    · intro hon
      rw [toggle_online now s hon]
      simp
    · intro hoff hq
      rw [toggle_offline_empty now s hoff hq]
      simp
  · apply key
    · intro hoff hq
      rw [toggle_offline_nonempty now s hoff hq]
      intro h
      have hl := congrArg List.length h
      have hpos : 0 < s.queuedReports.length := List.length_pos.mpr hq
      simp only [List.length_append] at hl
      omega
    · intro hon
      rw [toggle_online now s hon]
      simp
    · intro hoff hq
      rw [toggle_offline_empty now s hoff hq]
      simp
  · intro hoff hq
    rw [toggle_offline_nonempty now s hoff hq]
    exact ⟨rfl, rfl, rfl, rfl, rfl⟩
  · intro hon
    rw [toggle_online now s hon]
    simp [setOfflineToggle, hon]
  · intro hoff hq
    rw [toggle_offline_empty now s hoff hq]
    simp [setOfflineToggle, hoff]
  · intro hoff hq
    have h1 := toggle_offline_empty now s hoff hq
    have h2 : toggle n2 (toggle now s) = { s with offline := true } := by
      rw [h1, toggle_online n2 { s with offline := false } rfl]
    have h3 : toggle n3 (toggle n2 (toggle now s)) = { s with offline := false } := by
      rw [h2, toggle_offline_empty n3 { s with offline := true } rfl hq]
    rw [h3]
    simp [setOfflineToggle, hoff, hq]

theorem toggle_single_transition_witness :
    ((toggle 9 ⟨true, seededAlerts, [], [mkPayload formB 2 "t2"], []⟩).alerts
        = syncedAlert 9 1 :: seededAlerts) ∧
    toggle 9 initialState = ⟨true, seededAlerts, [], [], []⟩ ∧
    toggle 9 ⟨true, seededAlerts, [], [], []⟩ = initialState ∧
    (toggle 11 (toggle 10 (toggle 9 ⟨true, seededAlerts, [], [], []⟩))).alerts
      = seededAlerts :=
  ⟨((toggle_single_transition 9 10 11
      ⟨true, seededAlerts, [], [mkPayload formB 2 "t2"], []⟩).2.2.2.1 rfl (by decide)).1,
   ((toggle_single_transition 9 10 11 initialState).2.2.2.2.1 rfl).1,
   ((toggle_single_transition 9 10 11 ⟨true, seededAlerts, [], [], []⟩).2.2.2.2.2.1
      rfl rfl).1,
   ((toggle_single_transition 9 10 11 ⟨true, seededAlerts, [], [], []⟩).2.2.2.2.2.2
      rfl rfl).2.1⟩


/-! ## Alert dismissal -/

/-- Dismissal touches the alerts only. -/
theorem dismiss_keeps_reports (alertId : Nat) (s : Dashboard) :
    (dismiss alertId s).queuedReports = s.queuedReports ∧
    (dismiss alertId s).caseReports = s.caseReports ∧
    (dismiss alertId s).offline = s.offline :=
  ⟨rfl, rfl, rfl⟩

/-- Dismissing an identifier no alert carries changes nothing. -/
theorem dismiss_absent (alertId : Nat) (s : Dashboard)
    (h : ∀ a ∈ s.alerts, a.id ≠ alertId) : dismiss alertId s = s := by
  have hf : s.alerts.filter (fun al => al.id != alertId) = s.alerts := by
    rw [List.filter_eq_self]
    intro a ha
    simpa using h a ha
  unfold dismiss
  rw [hf]

/-- The alerts left by a dismissal are the other alerts in their order. -/
theorem dismiss_sublist (alertId : Nat) (s : Dashboard) :
    (dismiss alertId s).alerts.Sublist s.alerts ∧
    (∀ a, a ∈ (dismiss alertId s).alerts ↔ a ∈ s.alerts ∧ a.id ≠ alertId) := by
  constructor
  · exact List.filter_sublist _
  · intro a
    simp [dismiss, List.mem_filter]

/-- The filter of the Dismiss button drops one element from a list in which the
dismissed identifier occurs and identifiers do not repeat. -/
theorem filter_id_length (alertId : Nat) (l : List Alert)
    (hnd : (l.map Alert.id).Nodup) (hex : ∃ a ∈ l, a.id = alertId) :
    (l.filter (fun al => al.id != alertId)).length + 1 = l.length := by
  induction l with
  | nil =>
      obtain ⟨a, ha, _⟩ := hex
      cases ha
  | cons b t ih =>
      rw [List.map_cons, List.nodup_cons] at hnd
      by_cases hb : b.id = alertId
      · have hnot : ∀ a ∈ t, a.id ≠ alertId := by
          intro a ha hid
          apply hnd.1
          rw [hb, ← hid]
          exact List.mem_map_of_mem Alert.id ha
        have hf : t.filter (fun al => al.id != alertId) = t := by
          rw [List.filter_eq_self]
          intro a ha
          simpa using hnot a ha
        simp [List.filter_cons, hb, hf]
      · have hex1 : ∃ a ∈ t, a.id = alertId := by
          obtain ⟨a, ha, hid⟩ := hex
          rcases List.mem_cons.mp ha with h | h
          · exact absurd (h ▸ hid) hb
          · exact ⟨a, h, hid⟩
        have := ih hnd.2 hex1
        simp [List.filter_cons, hb]
        omega

/-- While the identifiers in the alerts do not repeat, dismissing one that
occurs removes exactly one alert. -/
theorem dismiss_distinct_ids (alertId : Nat) (s : Dashboard)
    (hnd : (s.alerts.map Alert.id).Nodup) (hex : ∃ a ∈ s.alerts, a.id = alertId) :
    (dismiss alertId s).alerts.length + 1 = s.alerts.length :=
  filter_id_length alertId s.alerts hnd hex

/-- C9, on the code: after a sensor tick above the threshold and an accepted
submission handled within the same millisecond, a reachable state holds two
alerts with the identifier 1700000000000, and dismissing it removes both: the
5 alerts drop to the 3 seeded ones instead of to 4. -/
theorem dismiss_same_clock_removes_two :
    Reachable (run initialState sameClockEvents) ∧
    (run initialState sameClockEvents).alerts
      = newCaseAlert 1700000000000 (mkPayload formA 1700000000000 "day 2, 09:00")
        :: bacteriaAlert 1700000000000 200 :: seededAlerts ∧
    (run initialState sameClockEvents).alerts.length = 5 ∧
    (dismiss 1700000000000 (run initialState sameClockEvents)).alerts = seededAlerts ∧
    (dismiss 1700000000000 (run initialState sameClockEvents)).alerts.length = 3 :=
  ⟨⟨sameClockEvents, rfl⟩, by decide, by decide, by decide, by decide⟩

/-! ## Alert insertion -/

/-- C10: every operation that generates an alert puts it in front of the
previous alerts, which are kept as they were: an accepted submission in either
mode, the flush of a non-empty queue, run directly while online or by a toggle
taken offline, and a sensor tick with a bacteria count above 150. -/
theorem alert_insertion_newest_first (s : Dashboard) :
    (∀ (form : Form) (idNow : Nat) (time : String) (alertNow : Nat),
      form.name ≠ "" → form.symptoms ≠ "" →
      (step s (.submit form idNow time alertNow)).alerts
        = (if s.offline then queuedAlert alertNow
            else newCaseAlert alertNow (mkPayload form idNow time)) :: s.alerts) ∧
    (∀ now : Nat, s.offline = false → s.queuedReports ≠ [] →
      (flushEffect now s).alerts = syncedAlert now s.queuedReports.length :: s.alerts) ∧
    (∀ now : Nat, s.offline = true → s.queuedReports ≠ [] →
      (step s (.toggle now)).alerts
        = syncedAlert now s.queuedReports.length :: s.alerts) ∧
    (∀ (entry : WaterEntry) (now : Nat), entry.bacteria > 150 →
      (step s (.tick entry now)).alerts
        = bacteriaAlert now entry.bacteria :: s.alerts) := by
  refine ⟨?_, ?_, ?_, ?_⟩
  · intro form idNow time alertNow hname hsym
    have hv : ¬ (form.name = "" ∨ form.symptoms = "") := by
      rintro (h | h)
      · exact hname h
      · exact hsym h
    have hr : handleSubmit form idNow time alertNow s
        = .ok (emptyForm, handleCaseSubmit alertNow (mkPayload form idNow time) s) := by
      unfold handleSubmit
      rw [if_neg hv]
    simp only [step, hr]
    cases hoff : s.offline <;> simp [handleCaseSubmit, hoff]
  · intro now hon hq
    rw [flushEffect_online_nonempty now s hon hq]
  · intro now hoff hq
    show (toggle now s).alerts = _
    rw [toggle_offline_nonempty now s hoff hq]
  · intro entry now hb
    show (sensorTick entry now s).alerts = _
    simp [sensorTick, hb]

theorem alert_insertion_newest_first_witness :
    (step initialState (.submit formA 30 "noon" 31)).alerts
      = newCaseAlert 31 (mkPayload formA 30 "noon") :: seededAlerts ∧
    (step ⟨true, seededAlerts, [], [mkPayload formB 2 "t2"], []⟩ (.toggle 9)).alerts
      = syncedAlert 9 1 :: seededAlerts ∧
    (step initialState (.tick highReading 40)).alerts
      = bacteriaAlert 40 200 :: seededAlerts :=
  ⟨(alert_insertion_newest_first initialState).1 formA 30 "noon" 31 (by decide) (by decide),
   (alert_insertion_newest_first
      ⟨true, seededAlerts, [], [mkPayload formB 2 "t2"], []⟩).2.2.1 9 rfl (by decide),
   (alert_insertion_newest_first initialState).2.2.2 highReading 40 (by decide)⟩


/-! ## Reachable states: the queue is empty while online -/

/-- An accepted or rejected submission keeps "online implies empty queue". -/
theorem submit_online_queue_empty (form : Form) (idNow : Nat) (time : String)
    (alertNow : Nat) (s : Dashboard)
    (h : s.offline = false → s.queuedReports = []) :
    (step s (.submit form idNow time alertNow)).offline = false →
      (step s (.submit form idNow time alertNow)).queuedReports = [] := by
  by_cases hv : form.name = "" ∨ form.symptoms = ""
  · have hs : step s (.submit form idNow time alertNow) = s := by
      simp only [step, handleSubmit, if_pos hv]
    rw [hs]
    exact h
  · have hs : step s (.submit form idNow time alertNow)
        = handleCaseSubmit alertNow (mkPayload form idNow time) s := by
      simp only [step, handleSubmit, if_neg hv]
    rw [hs]
    cases hoff : s.offline
    · intro _
      simpa [handleCaseSubmit, hoff] using h hoff
    · simp [handleCaseSubmit, hoff]

/-- A toggle keeps "online implies empty queue", whatever the state before. -/
theorem toggle_online_queue_empty (now : Nat) (s : Dashboard) :
    (toggle now s).offline = false → (toggle now s).queuedReports = [] := by
  cases hoff : s.offline
  · rw [toggle_online now s hoff]
    simp
  · by_cases hq : s.queuedReports = []
    · rw [toggle_offline_empty now s hoff hq]
      intro _
      exact hq
    · rw [toggle_offline_nonempty now s hoff hq]
      intro _
      rfl

/-- Every event keeps "online implies empty queue". -/
theorem step_online_queue_empty (s : Dashboard) (e : Event)
    (h : s.offline = false → s.queuedReports = []) :
    (step s e).offline = false → (step s e).queuedReports = [] := by
  cases e with
  | submit form idNow time alertNow =>
      exact submit_online_queue_empty form idNow time alertNow s h
  | toggle now => exact toggle_online_queue_empty now s
  | dismiss alertId => exact h
  | tick entry now =>
      show (sensorTick entry now s).offline = false →
        (sensorTick entry now s).queuedReports = []
      unfold sensorTick
      split <;> exact h

/-- A run from a state with "online implies empty queue" ends in such a state. -/
theorem run_online_queue_empty (es : List Event) (s : Dashboard)
    (h : s.offline = false → s.queuedReports = []) :
    (run s es).offline = false → (run s es).queuedReports = [] := by
  induction es generalizing s with
  | nil => exact h
  | cons e es ih =>
      show (run (step s e) es).offline = false → (run (step s e) es).queuedReports = []
      exact ih (step s e) (step_online_queue_empty s e h)

/-- C13: in every state reachable from mount by submit, toggle (with its flush
effect), dismiss and sensor-tick events, the queue is empty while the mode is
online; so a queued report exists only while the mode is offline. -/
theorem online_implies_queue_empty (s : Dashboard) (hr : Reachable s) :
    (s.offline = false → s.queuedReports = []) ∧
    (s.queuedReports ≠ [] → s.offline = true) := by
  obtain ⟨es, rfl⟩ := hr
  have h := run_online_queue_empty es initialState (fun _ => rfl)
  refine ⟨h, ?_⟩
  intro hq
  cases hoff : (run initialState es).offline
  · exact absurd (h hoff) hq
  · rfl

theorem online_implies_queue_empty_witness :
    Reachable (run initialState sampleEvents) ∧
    (run initialState sampleEvents).offline = false ∧
    (run initialState sampleEvents).queuedReports = [] ∧
    (run initialState (sampleEvents.take 3)).queuedReports ≠ [] ∧
    (run initialState (sampleEvents.take 3)).offline = true :=
  ⟨⟨sampleEvents, rfl⟩, by decide,
   (online_implies_queue_empty (run initialState sampleEvents)
      ⟨sampleEvents, rfl⟩).1 (by decide),
   by decide,
   (online_implies_queue_empty (run initialState (sampleEvents.take 3))
      ⟨sampleEvents.take 3, rfl⟩).2 (by decide)⟩


/-! ## Report objects: ownership -/

/-- Forgetting the references commutes with every event. -/
theorem eraseRefs_objStep (s : ObjDashboard) (e : Event) :
    eraseRefs (objStep s e) = step (eraseRefs s) e := by
  cases e with
  | submit form idNow time alertNow =>
      by_cases hv : form.name = "" ∨ form.symptoms = ""
      · simp only [objStep, step, objHandleSubmit, handleSubmit, if_pos hv]
      · simp only [objStep, step, objHandleSubmit, handleSubmit, if_neg hv]
        cases hoff : s.offline <;>
          simp [objHandleCaseSubmit, handleCaseSubmit, eraseRefs, hoff]
  | toggle now =>
      show eraseRefs (objToggle now s) = toggle now (eraseRefs s)
      cases hoff : s.offline <;> by_cases hq : s.queuedReports = [] <;>
        simp [objToggle, objFlushEffect, toggle, flushEffect, setOfflineToggle,
          eraseRefs, hoff, hq, List.length_pos]
  | dismiss alertId => rfl
  | tick entry now =>
      show eraseRefs (objSensorTick entry now s) = sensorTick entry now (eraseRefs s)
      by_cases hb : entry.bacteria > 150 <;>
        simp [objSensorTick, sensorTick, eraseRefs, hb]

/-- Forgetting the references commutes with a sequence of events. -/
theorem eraseRefs_foldl (es : List Event) (s : ObjDashboard) :
    eraseRefs (es.foldl objStep s) = run (eraseRefs s) es := by
  induction es generalizing s with
  | nil => rfl
  | cons e es ih =>
      show eraseRefs (es.foldl objStep (objStep s e)) = run (step (eraseRefs s) e) es
      rw [ih, eraseRefs_objStep]

/-- The run on report objects is the run of the dashboard once the references
are forgotten. -/
theorem eraseRefs_objRun (es : List Event) :
    eraseRefs (objRun es) = run initialState es :=
  eraseRefs_foldl es objInitialState


/-- An event creates no payload object or exactly one, with the next
reference. -/
theorem objCreatedBy_cases (n : Nat) (e : Event) :
    objCreatedBy n e = [] ∨ ∃ r : Report, objCreatedBy n e = [⟨n, r⟩] := by
  cases e with
  | submit form idNow time alertNow =>
      by_cases hv : form.name = "" ∨ form.symptoms = ""
      · left
        simp only [objCreatedBy, if_pos hv]
      · right
        exact ⟨mkPayload form idNow time, by simp only [objCreatedBy, if_neg hv]⟩
  | toggle now => exact Or.inl rfl
  | dismiss alertId => exact Or.inl rfl
  | tick entry now => exact Or.inl rfl

/-- The references of the created objects count up from the first free one. -/
theorem objCreatedFrom_refs (es : List Event) (n : Nat) :
    (objCreatedFrom n es).map ReportObj.ref
      = List.range' n (objCreatedFrom n es).length := by
  induction es generalizing n with
  | nil => rfl
  | cons e es ih =>
      rcases objCreatedBy_cases n e with h | ⟨r, h⟩
      · simp only [objCreatedFrom, h, List.nil_append, List.length_nil, Nat.add_zero]
        exact ih n
      · simp only [objCreatedFrom, h, List.singleton_append, List.length_cons,
          List.length_nil, List.map_cons, Nat.zero_add]
        rw [ih (n + 1), List.range'_succ]

/-- No two created objects share a reference, so the list of created objects
has no repetition. -/
theorem objCreatedFrom_nodup (es : List Event) (n : Nat) :
    (objCreatedFrom n es).Nodup := by
  apply List.Nodup.of_map ReportObj.ref
  rw [objCreatedFrom_refs]
  exact List.nodup_range' n _

/-- The counter of created objects after one event. -/
theorem objStep_allocated (s : ObjDashboard) (e : Event) :
    (objStep s e).allocated = s.allocated + (objCreatedBy s.allocated e).length := by
  cases e with
  | submit form idNow time alertNow =>
      by_cases hv : form.name = "" ∨ form.symptoms = ""
      · simp [objStep, objHandleSubmit, objCreatedBy, hv]
      · cases hoff : s.offline <;>
          simp [objStep, objHandleSubmit, objHandleCaseSubmit, objCreatedBy, hv, hoff]
  | toggle now =>
      show (objToggle now s).allocated = _
      unfold objToggle objFlushEffect
      split <;> simp [objCreatedBy]
  | dismiss alertId => simp [objStep, objDismiss, objCreatedBy]
  | tick entry now =>
      show (objSensorTick entry now s).allocated = _
      unfold objSensorTick
      split <;> simp [objCreatedBy]

/-- One event on a state in which online implies an empty queue: the object
it creates, if any, goes in front of queue followed by confirmed list, and
nothing else in that sequence changes. -/
theorem objStep_reports (s : ObjDashboard) (e : Event)
    (h : s.offline = false → s.queuedReports = []) :
    (objStep s e).queuedReports ++ (objStep s e).caseReports
      = objCreatedBy s.allocated e ++ (s.queuedReports ++ s.caseReports) := by
  cases e with
  | submit form idNow time alertNow =>
      by_cases hv : form.name = "" ∨ form.symptoms = ""
      · simp [objStep, objHandleSubmit, objCreatedBy, hv]
      · cases hoff : s.offline
        · simp [objStep, objHandleSubmit, objHandleCaseSubmit, objCreatedBy, hv, hoff,
            h hoff]
        · simp [objStep, objHandleSubmit, objHandleCaseSubmit, objCreatedBy, hv, hoff]
  | toggle now =>
      show (objToggle now s).queuedReports ++ (objToggle now s).caseReports = _
      unfold objToggle objFlushEffect
      split <;> simp [objCreatedBy]
  | dismiss alertId => simp [objStep, objDismiss, objCreatedBy]
  | tick entry now =>
      show (objSensorTick entry now s).queuedReports
        ++ (objSensorTick entry now s).caseReports = _
      unfold objSensorTick
      split <;> simp [objCreatedBy]

/-- Every event keeps "online implies empty queue" on report objects. -/
theorem objStep_online_queue_empty (s : ObjDashboard) (e : Event)
    (h : s.offline = false → s.queuedReports = []) :
    (objStep s e).offline = false → (objStep s e).queuedReports = [] := by
  intro hoff
  have herase := eraseRefs_objStep s e
  have hplain : (eraseRefs s).offline = false → (eraseRefs s).queuedReports = [] := by
    intro h1
    show s.queuedReports.map ReportObj.fields = []
    rw [h h1]
    rfl
  have hstep := step_online_queue_empty (eraseRefs s) e hplain
  rw [← herase] at hstep
  exact List.map_eq_nil_iff.mp (hstep hoff)

/-- After a sequence of events from a state in which online implies an empty
queue, queue followed by confirmed list is the created objects, newest first,
followed by what the two lists held before. -/
theorem objFoldl_reports (es : List Event) (s : ObjDashboard)
    (h : s.offline = false → s.queuedReports = []) :
    (es.foldl objStep s).queuedReports ++ (es.foldl objStep s).caseReports
      = (objCreatedFrom s.allocated es).reverse ++ (s.queuedReports ++ s.caseReports) := by
  induction es generalizing s with
  | nil => rfl
  | cons e es ih =>
      show (es.foldl objStep (objStep s e)).queuedReports
          ++ (es.foldl objStep (objStep s e)).caseReports = _
      rw [ih (objStep s e) (objStep_online_queue_empty s e h), objStep_reports s e h,
        objStep_allocated]
      rcases objCreatedBy_cases s.allocated e with hc | ⟨r, hc⟩ <;>
        simp [objCreatedFrom, hc]


/-- From mount, queue followed by confirmed list is the accepted reports,
newest first. -/
theorem objRun_reports (es : List Event) :
    (objRun es).queuedReports ++ (objRun es).caseReports = (objCreated es).reverse := by
  have h := objFoldl_reports es objInitialState (fun _ => rfl)
  simpa [objRun, objCreated, objInitialState] using h

/-- The same on report values: queue followed by confirmed list is the fields
of the accepted reports, newest first. -/
theorem run_reports (es : List Event) :
    (run initialState es).queuedReports ++ (run initialState es).caseReports
      = ((objCreated es).map ReportObj.fields).reverse := by
  rw [← eraseRefs_objRun es]
  show (objRun es).queuedReports.map ReportObj.fields
      ++ (objRun es).caseReports.map ReportObj.fields = _
  rw [← List.map_append, objRun_reports, List.map_reverse]

/-- C11: in every state reached from mount by submit, toggle (with its flush),
dismiss and sensor-tick events, with reports taken as the payload objects the
accepted submissions created: queue followed by confirmed list holds every
accepted report exactly once, so no report is in both lists and every accepted
report is in exactly one of them.  Forgetting the references gives the run of
the dashboard. -/
theorem confirmed_queue_disjoint (es : List Event) :
    eraseRefs (objRun es) = run initialState es ∧
    (objRun es).queuedReports ++ (objRun es).caseReports = (objCreated es).reverse ∧
    ((objRun es).queuedReports ++ (objRun es).caseReports).Nodup ∧
    List.Disjoint (objRun es).caseReports (objRun es).queuedReports ∧
    (∀ o : ReportObj,
      ¬ (o ∈ (objRun es).caseReports ∧ o ∈ (objRun es).queuedReports)) ∧
    (∀ o ∈ objCreated es,
      (o ∈ (objRun es).queuedReports ∧ o ∉ (objRun es).caseReports) ∨
      (o ∈ (objRun es).caseReports ∧ o ∉ (objRun es).queuedReports)) := by
  have hrep := objRun_reports es
  have hnd : ((objRun es).queuedReports ++ (objRun es).caseReports).Nodup := by
    rw [hrep, List.nodup_reverse]
    exact objCreatedFrom_nodup es 0
  have hdis : List.Disjoint (objRun es).queuedReports (objRun es).caseReports :=
    (List.nodup_append.mp hnd).2.2
  refine ⟨eraseRefs_objRun es, hrep, hnd, hdis.symm, ?_, ?_⟩
  · rintro o ⟨hc, hq⟩
    exact hdis hq hc
  · intro o ho
    have hmem : o ∈ (objRun es).queuedReports ++ (objRun es).caseReports := by
      rw [hrep]
      exact List.mem_reverse.mpr ho
    rcases List.mem_append.mp hmem with hq | hc
    · exact Or.inl ⟨hq, fun hc => hdis hq hc⟩
    · exact Or.inr ⟨hc, fun hq => hdis hq hc⟩

theorem confirmed_queue_disjoint_witness :
    (objRun (sampleEvents.take 3)).caseReports
        = [⟨0, mkPayload formA 1000 "day 1, 10:00"⟩] ∧
    (objRun (sampleEvents.take 3)).queuedReports
        = [⟨1, mkPayload formB 3000 "day 1, 10:05"⟩] ∧
    List.Disjoint (objRun (sampleEvents.take 3)).caseReports
      (objRun (sampleEvents.take 3)).queuedReports ∧
    (objRun sampleEvents).queuedReports ++ (objRun sampleEvents).caseReports
      = [⟨1, mkPayload formB 3000 "day 1, 10:05"⟩, ⟨0, mkPayload formA 1000 "day 1, 10:00"⟩] :=
  ⟨by decide, by decide, (confirmed_queue_disjoint (sampleEvents.take 3)).2.2.2.1,
   (confirmed_queue_disjoint sampleEvents).2.1.trans (by decide)⟩

/-! ## Report identifiers -/

/-- The ids held in queue followed by confirmed list are the clock readings of
the accepted submissions, newest first. -/
theorem report_ids_are_clock_readings (es : List Event) :
    ((run initialState es).queuedReports ++ (run initialState es).caseReports).map Report.id
      = (acceptedIds es).reverse := by
  rw [run_reports, List.map_reverse, List.map_map]
  rfl

/-- While the clock readings of the accepted submissions increase strictly,
the ids held are pairwise distinct and decrease from newest to oldest. -/
theorem report_ids_distinct_of_increasing_clock (es : List Event)
    (h : (acceptedIds es).Pairwise (fun a b => a < b)) :
    (((run initialState es).queuedReports
        ++ (run initialState es).caseReports).map Report.id).Nodup ∧
    (((run initialState es).queuedReports
        ++ (run initialState es).caseReports).map Report.id).Pairwise
      (fun a b => b < a) := by
  rw [report_ids_are_clock_readings]
  constructor
  · rw [List.nodup_reverse]
    exact h.imp (fun hab => Nat.ne_of_lt hab)
  · exact List.pairwise_reverse.mpr h

/-- C12, on the code: ids are `Date.now()` readings.  Two accepted submissions
with the same reading leave two reports with the id 1700000000000 in the
confirmed list, and when the clock is set back between two submissions the
later report carries the smaller id. -/
theorem report_ids_follow_clock :
    ((run initialState equalClockSubmits).queuedReports
        ++ (run initialState equalClockSubmits).caseReports).map Report.id
      = [1700000000000, 1700000000000] ∧
    ¬ (((run initialState equalClockSubmits).queuedReports
        ++ (run initialState equalClockSubmits).caseReports).map Report.id).Nodup ∧
    (run initialState clockSetBackSubmits).caseReports
      = [mkPayload formB 1700000000000 "day 2, 08:59",
          mkPayload formA 1700000005000 "day 2, 09:00"] ∧
    (mkPayload formB 1700000000000 "day 2, 08:59").id
      < (mkPayload formA 1700000005000 "day 2, 09:00").id := by
  decide

end HealthGuard
